import Mathlib

/-!
Verification of the maintenance-scheduler core of `src/app.py`.

The repository's algorithmic content lives in four fixture-producing
functions: `generate_sensor_data`, `generate_workers`,
`generate_maintenance_tasks` and `generate_schedule`.  Each is embedded
below as a Lean definition over the literal data of the source.

Conventions of the embedding:
* Timestamps such as "2024-01-05 08:00" are encoded as hours elapsed since
  2024-01-01 00:00 via `dt day hour`; a bare date "2024-01-05" is encoded
  as its day-of-January number.
* Skill lists, names, ids, shifts, certifications, priorities and statuses
  are kept as the source's strings.
* `estimated_hours` is a natural number of hours, as in the source.
-/

/-- Hours elapsed since 2024-01-01 00:00 for the timestamp
"2024-01-`day` `hour`:00" (all source timestamps lie in January 2024 and
fall on whole hours). -/
def dt (day hour : Nat) : Nat := (day - 1) * 24 + hour

/-- A row of the worker roster of `generate_workers` (src/app.py:72-86). -/
structure Worker where
  id : String
  name : String
  skills : List String
  certification : String
  availability : Rat
  shift : String
deriving Repr, DecidableEq

/-- `generate_workers` (src/app.py:72-86): the literal worker roster. -/
def generate_workers : List Worker := [
  { id := "W001", name := "John Mitchell", skills := ["Reactor Systems", "Pumps", "Electrical"], certification := "Senior", availability := 9/10, shift := "Day" },
  { id := "W002", name := "Sarah Chen", skills := ["Instrumentation", "Controls", "Calibration"], certification := "Senior", availability := 85/100, shift := "Day" },
  { id := "W003", name := "Michael Rodriguez", skills := ["Mechanical", "Pumps", "Valves"], certification := "Journeyman", availability := 95/100, shift := "Day" },
  { id := "W004", name := "Emily Watson", skills := ["Electrical", "Motors", "Generators"], certification := "Senior", availability := 8/10, shift := "Night" },
  { id := "W005", name := "David Kim", skills := ["Reactor Systems", "Safety Systems"], certification := "Senior", availability := 9/10, shift := "Day" },
  { id := "W006", name := "Lisa Thompson", skills := ["HVAC", "Containment", "Ventilation"], certification := "Journeyman", availability := 88/100, shift := "Night" },
  { id := "W007", name := "Robert Garcia", skills := ["Welding", "Piping", "Mechanical"], certification := "Senior", availability := 92/100, shift := "Day" },
  { id := "W008", name := "Amanda Foster", skills := ["Instrumentation", "Radiation Monitoring"], certification := "Senior", availability := 87/100, shift := "Day" },
  { id := "W009", name := "James Wilson", skills := ["Diesel Generators", "Electrical", "Mechanical"], certification := "Journeyman", availability := 9/10, shift := "Night" },
  { id := "W010", name := "Jennifer Lee", skills := ["Controls", "PLC", "Safety Systems"], certification := "Senior", availability := 85/100, shift := "Day" }]

/-- A row of `generate_maintenance_tasks` (src/app.py:89-109).
`due_date` is the day-of-January number of the source's "2024-01-DD". -/
structure MaintenanceTask where
  id : String
  equipment : String
  task : String
  priority : String
  skills_required : List String
  estimated_hours : Nat
  due_date : Nat
  status : String
deriving Repr, DecidableEq

/-- `generate_maintenance_tasks` (src/app.py:89-109): the literal task table. -/
def generate_maintenance_tasks : List MaintenanceTask := [
  { id := "MT001", equipment := "Reactor Coolant Pump A", task := "Bearing Replacement", priority := "Critical",
    skills_required := ["Pumps", "Mechanical"], estimated_hours := 8, due_date := 5, status := "Scheduled" },
  { id := "MT002", equipment := "Reactor Coolant Pump A", task := "Vibration Analysis Follow-up", priority := "High",
    skills_required := ["Instrumentation"], estimated_hours := 2, due_date := 3, status := "In Progress" },
  { id := "MT003", equipment := "Steam Generator B", task := "Pressure Sensor Calibration", priority := "Medium",
    skills_required := ["Instrumentation", "Calibration"], estimated_hours := 4, due_date := 8, status := "Pending" },
  { id := "MT004", equipment := "Containment Fan Unit C", task := "Motor Inspection", priority := "Medium",
    skills_required := ["Electrical", "Motors"], estimated_hours := 3, due_date := 6, status := "Scheduled" },
  { id := "MT005", equipment := "Emergency Diesel Generator 1", task := "Routine Testing", priority := "High",
    skills_required := ["Diesel Generators", "Electrical"], estimated_hours := 6, due_date := 4, status := "Scheduled" },
  { id := "MT006", equipment := "Main Feedwater Pump D", task := "Seal Inspection", priority := "High",
    skills_required := ["Pumps", "Mechanical"], estimated_hours := 5, due_date := 7, status := "Pending" },
  { id := "MT007", equipment := "Reactor Coolant Pump A", task := "Thermal Imaging Survey", priority := "Medium",
    skills_required := ["Instrumentation"], estimated_hours := 2, due_date := 9, status := "Pending" },
  { id := "MT008", equipment := "Steam Generator B", task := "Tube Inspection", priority := "High",
    skills_required := ["Reactor Systems", "Instrumentation"], estimated_hours := 12, due_date := 10, status := "Pending" }]

/-- A row of `generate_schedule` (src/app.py:112-126).  `start` and `stop`
are the source's "start" and "end" timestamps, in hours since
2024-01-01 00:00 (`end` is a Lean keyword, hence `stop`). -/
structure ScheduleAssignment where
  task_id : String
  worker_id : String
  worker_name : String
  start : Nat
  stop : Nat
  equipment : String
deriving Repr, DecidableEq

/-- `generate_schedule` (src/app.py:112-126): the literal committed schedule. -/
def generate_schedule : List ScheduleAssignment := [
  { task_id := "MT002", worker_id := "W002", worker_name := "Sarah Chen", start := dt 3 8, stop := dt 3 10, equipment := "Reactor Coolant Pump A" },
  { task_id := "MT005", worker_id := "W009", worker_name := "James Wilson", start := dt 4 20, stop := dt 5 2, equipment := "Emergency Diesel Generator 1" },
  { task_id := "MT001", worker_id := "W003", worker_name := "Michael Rodriguez", start := dt 5 8, stop := dt 5 16, equipment := "Reactor Coolant Pump A" },
  { task_id := "MT001", worker_id := "W007", worker_name := "Robert Garcia", start := dt 5 8, stop := dt 5 16, equipment := "Reactor Coolant Pump A" },
  { task_id := "MT004", worker_id := "W004", worker_name := "Emily Watson", start := dt 6 20, stop := dt 6 23, equipment := "Containment Fan Unit C" },
  { task_id := "MT006", worker_id := "W003", worker_name := "Michael Rodriguez", start := dt 7 8, stop := dt 7 13, equipment := "Main Feedwater Pump D" },
  { task_id := "MT003", worker_id := "W002", worker_name := "Sarah Chen", start := dt 8 8, stop := dt 8 12, equipment := "Steam Generator B" },
  { task_id := "MT007", worker_id := "W008", worker_name := "Amanda Foster", start := dt 9 8, stop := dt 9 10, equipment := "Reactor Coolant Pump A" },
  { task_id := "MT008", worker_id := "W005", worker_name := "David Kim", start := dt 10 8, stop := dt 10 20, equipment := "Steam Generator B" },
  { task_id := "MT008", worker_id := "W002", worker_name := "Sarah Chen", start := dt 10 8, stop := dt 10 20, equipment := "Steam Generator B" }]

/-- `qualifies(worker, task)` over the source's data model: the worker's
skill list contains every required skill of the task.  The task table of
`generate_maintenance_tasks` carries no minimum-certification column, so
the spec's certification clause has no counterpart in the source's data
and imposes no constraint here. -/
def qualifies (w : Worker) (t : MaintenanceTask) : Bool :=
  t.skills_required.all (fun s => w.skills.contains s)

/-- Modelled from the spec: the source never defines the hour span of a
"Day" or "Night" shift (workers only carry the label), and the spec speaks
of "the worker's shift window for that date" without fixing hours.  We
model the two labels as the complementary twelve-hour plant shifts, Day
08:00-20:00 and Night 20:00-08:00 of the next day, returned as a
(first, last) pair of hour stamps for the given day-of-January. -/
def shiftWindow (shift : String) (day : Nat) : Nat × Nat :=
  if shift = "Day" then (dt day 8, dt day 20) else (dt day 20, dt (day + 1) 8)

/-- The day-of-January on which an hour stamp falls (inverse of `dt`). -/
def dayOf (hours : Nat) : Nat := hours / 24 + 1

/-- End of the day `due_date`: the first hour stamp strictly after the due
day.  "Not after the due date" for an assignment end means `≤ dueEnd`. -/
def dueEnd (t : MaintenanceTask) : Nat := dt (t.due_date + 1) 0

/-- The fixed risk-to-tier thresholds of the spec: risk ≥ 0.7 → Critical,
≥ 0.5 → High, ≥ 0.25 → Medium, else Low. -/
def tierOf (risk : Rat) : String :=
  if 7/10 ≤ risk then "Critical"
  else if 5/10 ≤ risk then "High"
  else if 25/100 ≤ risk then "Medium"
  else "Low"

/-! ### Sensor-data model

`generate_sensor_data` (src/app.py:31-69) seeds numpy's global PRNG with
`np.random.seed(42)` and then builds, for five equipment units, four
720-sample series from `np.random.normal`, `np.linspace`, `np.sin` and
`np.clip`.  The embedding is parameterised by

* `gauss : Nat → Nat → Rat` — the standard-normal draw stream of the
  seeded PRNG: `gauss state k` is the k-th N(0,1) variate produced after
  the state was set to `state` (numpy's `normal(mu, sigma, n)` returns
  `mu + sigma * draw` for each of `n` consecutive stream draws);
* `sin0 : Rat → Rat` — the sine function (transcendental, so a parameter).

Both are fixed deterministic functions; parameterising over them keeps
the embedding exact and computable without reimplementing MT19937,
Box-Muller and floating point.  The ambient PRNG state is an explicit
argument, overwritten by the seed call as in the source. -/

/-- `np.clip(x, lo, hi)`. -/
def np_clip (x lo hi : Rat) : Rat := max lo (min hi x)

/-- `np.linspace(a, b, 720)` at index `i`: 720 evenly spaced points from
`a` to `b` inclusive. -/
def np_linspace (a b : Rat) (i : Nat) : Rat := a + (b - a) * i / 719

/-- `np.random.seed(s)`: the global PRNG state becomes a function of the
seed alone. -/
def np_seed (s : Nat) : Nat := s

/-- One equipment entry of `generate_sensor_data`: the four 720-sample
series, each a function from sample index to value. -/
structure SensorSeries where
  vibration : Nat → Rat
  temperature : Nat → Rat
  pressure : Nat → Rat
  failure_prob : Nat → Rat

/-- `np.random.normal(mu, sigma, 720)` at index `i`, as the `call`-th
720-draw call after the PRNG state became `state`. -/
def np_normal (gauss : Nat → Nat → Rat) (state call : Nat) (mu sigma : Rat) (i : Nat) : Rat :=
  mu + sigma * gauss state (call * 720 + i)

/-- `generate_sensor_data` (src/app.py:31-69).  `ambient` is the PRNG
state at entry; the function's first act is `np.random.seed(42)`, so the
state actually used is `np_seed 42`.  Returns the timestamp sequence
(720 hourly stamps from 2024-01-01, as hour offsets) and the five
equipment series; the twenty `np.random.normal` calls consume the draw
stream in source order (call numbers 0-19). -/
def generate_sensor_data (gauss : Nat → Nat → Rat) (sin0 : Rat → Rat) (ambient : Nat) :
    List Nat × List (String × SensorSeries) :=
  let state := np_seed 42
  let dates := List.range 720
  let sensors : List (String × SensorSeries) := [
    ("Reactor Coolant Pump A", {
      vibration := fun i => np_normal gauss state 0 (25/10) (3/10) i + np_linspace 0 (15/10) i,
      temperature := fun i => np_normal gauss state 1 285 5 i + np_linspace 0 15 i,
      pressure := fun i => np_normal gauss state 2 155 2 i,
      failure_prob := fun i => np_clip (np_linspace (5/100) (85/100) i + np_normal gauss state 3 0 (5/100) i) 0 1 }),
    ("Steam Generator B", {
      vibration := fun i => np_normal gauss state 4 (18/10) (2/10) i,
      temperature := fun i => np_normal gauss state 5 275 4 i,
      pressure := fun i => np_normal gauss state 6 68 (15/10) i - np_linspace 0 5 i,
      failure_prob := fun i => np_clip (np_linspace (1/10) (45/100) i + np_normal gauss state 7 0 (3/100) i) 0 1 }),
    ("Containment Fan Unit C", {
      vibration := fun i => np_normal gauss state 8 (32/10) (4/10) i + sin0 (np_linspace 0 10 i) * (5/10),
      temperature := fun i => np_normal gauss state 9 45 3 i,
      pressure := fun i => np_normal gauss state 10 (102/100) (2/100) i,
      failure_prob := fun i => np_clip (15/100 + sin0 (np_linspace 0 5 i) * (1/10) + np_normal gauss state 11 0 (2/100) i) 0 1 }),
    ("Emergency Diesel Generator 1", {
      vibration := fun i => np_normal gauss state 12 (45/10) (6/10) i,
      temperature := fun i => np_normal gauss state 13 95 8 i,
      pressure := fun i => np_normal gauss state 14 (65/10) (3/10) i,
      failure_prob := fun i => np_clip (np_normal gauss state 15 (12/100) (4/100) i) 0 1 }),
    ("Main Feedwater Pump D", {
      vibration := fun i => np_normal gauss state 16 (21/10) (25/100) i + np_linspace 0 (8/10) i,
      temperature := fun i => np_normal gauss state 17 65 4 i,
      pressure := fun i => np_normal gauss state 18 85 2 i,
      failure_prob := fun i => np_clip (np_linspace (8/100) (55/100) i + np_normal gauss state 19 0 (4/100) i) 0 1 })]
  (dates, sensors)

/-- Clipping to [0,1] lands in [0,1], whatever the argument. -/
theorem np_clip_unit (x : Rat) : 0 ≤ np_clip x 0 1 ∧ np_clip x 0 1 ≤ 1 :=
  ⟨le_max_left 0 (min 1 x), max_le zero_le_one (min_le_left 1 x)⟩

/-! ## Claims -/

/-- Claim C1, as stated, is false on the code: the schedule row assigning
worker W007 (Robert Garcia, skills Welding/Piping/Mechanical) to task
MT001 (required skills Pumps and Mechanical) has a worker who does not
satisfy `qualifies`, "Pumps" not being among his skills; likewise W005 and
W002 on MT008. -/
theorem C1_counterexample :
    ¬ (∀ a ∈ generate_schedule, ∀ w ∈ generate_workers,
        ∀ t ∈ generate_maintenance_tasks,
        w.id = a.worker_id → t.id = a.task_id → qualifies w t = true) := by
  decide

/-- Claim C1 (amended): for every task that has at least one assignment in
the schedule, every required skill of the task is held by at least one of
the workers assigned to it — the assigned workers jointly cover
`skills_required`, though an individual worker (W007 on MT001, W005 and
W002 on MT008) need not qualify alone. -/
theorem C1_joint_skill_coverage :
    ∀ t ∈ generate_maintenance_tasks, ∀ s ∈ t.skills_required,
      (∃ a ∈ generate_schedule, a.task_id = t.id) →
      ∃ a ∈ generate_schedule, a.task_id = t.id ∧
        ∃ w ∈ generate_workers, w.id = a.worker_id ∧ s ∈ w.skills := by
  decide

/-- Witness for C1: the skill "Pumps" of task MT001 is held by one of
MT001's assigned workers. -/
theorem C1_joint_skill_coverage_witness :
    ∃ a ∈ generate_schedule,
      a.task_id = (generate_maintenance_tasks.get ⟨0, by decide⟩).id ∧
      ∃ w ∈ generate_workers, w.id = a.worker_id ∧ "Pumps" ∈ w.skills :=
  C1_joint_skill_coverage (generate_maintenance_tasks.get ⟨0, by decide⟩)
    (by decide) "Pumps" (by decide) (by decide)

/-- Claim C2: no two distinct assignments of the committed schedule that
share a worker id have intersecting [start, end) intervals. -/
theorem C2_no_worker_overlap :
    ∀ i j : Fin generate_schedule.length, i ≠ j →
      (generate_schedule.get i).worker_id = (generate_schedule.get j).worker_id →
      ¬ ((generate_schedule.get i).start < (generate_schedule.get j).stop ∧
         (generate_schedule.get j).start < (generate_schedule.get i).stop) := by
  decide

/-- Witness for C2: rows 0 and 6 both belong to worker W002 and their
intervals (Jan 3 08:00-10:00 and Jan 8 08:00-12:00) do not intersect. -/
theorem C2_no_worker_overlap_witness :
    ¬ ((generate_schedule.get ⟨0, by decide⟩).start < (generate_schedule.get ⟨6, by decide⟩).stop ∧
       (generate_schedule.get ⟨6, by decide⟩).start < (generate_schedule.get ⟨0, by decide⟩).stop) :=
  C2_no_worker_overlap ⟨0, by decide⟩ ⟨6, by decide⟩ (by decide) (by decide)

/-- Claim C3, as stated, is false on the code: task MT006 has status
"Pending" in `generate_maintenance_tasks` yet the schedule contains an
assignment for it (row 5, worker W003); so do the Pending tasks MT003,
MT007 and MT008. -/
theorem C3_counterexample :
    ¬ (∀ a ∈ generate_schedule, ∀ t ∈ generate_maintenance_tasks,
        t.id = a.task_id → (t.status = "Scheduled" ∨ t.status = "In Progress")) := by
  decide

/-- Claim C3 (amended): every task referenced by an assignment of the
schedule has status "Scheduled", "In Progress" or "Pending"; no
"Unscheduled" or "Completed" task has a committed assignment. -/
theorem C3_assigned_task_status :
    ∀ a ∈ generate_schedule, ∀ t ∈ generate_maintenance_tasks,
      t.id = a.task_id →
      t.status ∈ (["Scheduled", "In Progress", "Pending"] : List String) := by
  decide

/-- Witness for C3: row 0 of the schedule references MT002, whose status
"In Progress" is among the three statuses. -/
theorem C3_assigned_task_status_witness :
    (generate_maintenance_tasks.get ⟨1, by decide⟩).status ∈
      (["Scheduled", "In Progress", "Pending"] : List String) :=
  C3_assigned_task_status (generate_schedule.get ⟨0, by decide⟩) (by decide)
    (generate_maintenance_tasks.get ⟨1, by decide⟩) (by decide) (by decide)

/-- Claim C4: any two distinct assignments sharing a task id share one
common interval (equal start and equal end) and carry distinct worker ids;
this covers the two co-scheduled tasks MT001 (W003, W007) and MT008
(W005, W002). -/
theorem C4_coscheduling :
    ∀ i j : Fin generate_schedule.length, i ≠ j →
      (generate_schedule.get i).task_id = (generate_schedule.get j).task_id →
      (generate_schedule.get i).start = (generate_schedule.get j).start ∧
      (generate_schedule.get i).stop = (generate_schedule.get j).stop ∧
      (generate_schedule.get i).worker_id ≠ (generate_schedule.get j).worker_id := by
  decide

/-- Witness for C4: rows 2 and 3 both belong to MT001, share the interval
Jan 5 08:00-16:00, and are held by the distinct workers W003 and W007. -/
theorem C4_coscheduling_witness :
    (generate_schedule.get ⟨2, by decide⟩).start = (generate_schedule.get ⟨3, by decide⟩).start ∧
    (generate_schedule.get ⟨2, by decide⟩).stop = (generate_schedule.get ⟨3, by decide⟩).stop ∧
    (generate_schedule.get ⟨2, by decide⟩).worker_id ≠ (generate_schedule.get ⟨3, by decide⟩).worker_id :=
  C4_coscheduling ⟨2, by decide⟩ ⟨3, by decide⟩ (by decide) (by decide)

/-- Claim C5: every assignment lies inside its worker's shift window
(`shiftWindow`, modelled as Day 08:00-20:00 and Night 20:00-08:00, the
source fixing no hours) for the day on which the assignment starts. -/
theorem C5_within_shift_window :
    ∀ a ∈ generate_schedule, ∀ w ∈ generate_workers, w.id = a.worker_id →
      (shiftWindow w.shift (dayOf a.start)).1 ≤ a.start ∧
      a.stop ≤ (shiftWindow w.shift (dayOf a.start)).2 := by
  decide

/-- Witness for C5: row 0 (worker W002, Day shift, Jan 3 08:00-10:00)
lies inside the Day window of January 3. -/
theorem C5_within_shift_window_witness :
    (shiftWindow (generate_workers.get ⟨1, by decide⟩).shift
        (dayOf (generate_schedule.get ⟨0, by decide⟩).start)).1 ≤
      (generate_schedule.get ⟨0, by decide⟩).start ∧
    (generate_schedule.get ⟨0, by decide⟩).stop ≤
      (shiftWindow (generate_workers.get ⟨1, by decide⟩).shift
        (dayOf (generate_schedule.get ⟨0, by decide⟩).start)).2 :=
  C5_within_shift_window (generate_schedule.get ⟨0, by decide⟩) (by decide)
    (generate_workers.get ⟨1, by decide⟩) (List.get_mem _ _ _) (by decide)

/-- Claim C6, as stated, is false on the code: the assignment for MT005
(worker W009) runs Jan 4 20:00 to Jan 5 02:00, ending two hours after the
end of MT005's due day 2024-01-04. -/
theorem C6_counterexample :
    ¬ (∀ a ∈ generate_schedule, ∀ t ∈ generate_maintenance_tasks,
        t.id = a.task_id →
        a.stop - a.start = t.estimated_hours ∧ a.stop ≤ dueEnd t) := by
  decide

/-- Claim C6 (amended): every assignment's length equals its task's
`estimated_hours`, and every assignment except MT005's ends no later than
the end of its task's due day; MT005's night assignment overshoots that
bound by exactly two hours. -/
theorem C6_duration_and_due :
    ∀ a ∈ generate_schedule, ∀ t ∈ generate_maintenance_tasks,
      t.id = a.task_id →
      a.stop - a.start = t.estimated_hours ∧
      (a.task_id ≠ "MT005" → a.stop ≤ dueEnd t) ∧
      (a.task_id = "MT005" → a.stop = dueEnd t + 2) := by
  decide

/-- Witness for C6: row 0 (MT002, Jan 3 08:00-10:00) has length 2 =
`estimated_hours` and ends before the end of its due day 2024-01-03. -/
theorem C6_duration_and_due_witness :
    (generate_schedule.get ⟨0, by decide⟩).stop - (generate_schedule.get ⟨0, by decide⟩).start =
      (generate_maintenance_tasks.get ⟨1, by decide⟩).estimated_hours ∧
    ((generate_schedule.get ⟨0, by decide⟩).task_id ≠ "MT005" →
      (generate_schedule.get ⟨0, by decide⟩).stop ≤
        dueEnd (generate_maintenance_tasks.get ⟨1, by decide⟩)) ∧
    ((generate_schedule.get ⟨0, by decide⟩).task_id = "MT005" →
      (generate_schedule.get ⟨0, by decide⟩).stop =
        dueEnd (generate_maintenance_tasks.get ⟨1, by decide⟩) + 2) :=
  C6_duration_and_due (generate_schedule.get ⟨0, by decide⟩) (by decide)
    (generate_maintenance_tasks.get ⟨1, by decide⟩) (by decide) (by decide)

/-- Claim C7, as stated, is false on the code: the task priorities of
`generate_maintenance_tasks` are hardcoded and cannot all equal
`tierOf` of any per-equipment risk score, because MT001 ("Critical") and
MT002 ("High") belong to the same equipment, Reactor Coolant Pump A. -/
theorem C7_counterexample :
    ¬ ∃ risk : String → Rat, ∀ t ∈ generate_maintenance_tasks,
        t.priority = tierOf (risk t.equipment) := by
  rintro ⟨risk, h⟩
  have h1 : "Critical" = tierOf (risk "Reactor Coolant Pump A") :=
    h (generate_maintenance_tasks.get ⟨0, by decide⟩) (by decide)
  have h2 : "High" = tierOf (risk "Reactor Coolant Pump A") :=
    h (generate_maintenance_tasks.get ⟨1, by decide⟩) (by decide)
  exact absurd (h1.trans h2.symm) (by decide)

/-- Claim C7 (amended): the priority tiers are fixture constants of
`generate_maintenance_tasks` — Critical for MT001, High for MT002, MT005,
MT006 and MT008, Medium for MT003, MT004 and MT007 — and are not derived
from the sensor feed's failure probabilities through the thresholds. -/
theorem C7_priorities_are_constants :
    generate_maintenance_tasks.map (fun t => (t.id, t.priority)) =
      [("MT001", "Critical"), ("MT002", "High"), ("MT003", "Medium"),
       ("MT004", "Medium"), ("MT005", "High"), ("MT006", "High"),
       ("MT007", "Medium"), ("MT008", "High")] := by
  decide

/-- Claim C8: every `failure_prob` sample of every equipment lies in
[0, 1], for any Gaussian draw stream, any sine values and any incoming
PRNG state — each series is wrapped in `np.clip(·, 0, 1)`. -/
theorem C8_failure_prob_unit :
    ∀ (gauss : Nat → Nat → Rat) (sin0 : Rat → Rat) (ambient : Nat),
      ∀ e ∈ (generate_sensor_data gauss sin0 ambient).2, ∀ i : Nat,
        0 ≤ e.2.failure_prob i ∧ e.2.failure_prob i ≤ 1 := by
  intro gauss sin0 ambient e he i
  simp only [generate_sensor_data, List.mem_cons, List.not_mem_nil, or_false] at he
  rcases he with h | h | h | h | h <;> subst h <;> exact np_clip_unit _

/-- Witness for C8: with all draws zero and a zero sine, the first sample
of Reactor Coolant Pump A's failure probability lies in [0, 1]. -/
theorem C8_failure_prob_unit_witness :
    0 ≤ ((generate_sensor_data (fun _ _ => 0) (fun _ => 0) 0).2.get
          ⟨0, by decide⟩).2.failure_prob 0 ∧
    ((generate_sensor_data (fun _ _ => 0) (fun _ => 0) 0).2.get
          ⟨0, by decide⟩).2.failure_prob 0 ≤ 1 :=
  C8_failure_prob_unit (fun _ _ => 0) (fun _ => 0) 0 _ (List.get_mem _ _ _) 0

/-- Claim C9: `generate_sensor_data` reseeds numpy's global PRNG with the
constant 42 before drawing, so its output — timestamp sequence and all
four series of all five equipment units — is the same whatever the PRNG
state at entry: two runs produce identical outputs. -/
theorem C9_deterministic :
    ∀ (gauss : Nat → Nat → Rat) (sin0 : Rat → Rat) (s1 s2 : Nat),
      generate_sensor_data gauss sin0 s1 = generate_sensor_data gauss sin0 s2 := by
  intro _ _ _ _
  rfl

/-- Claim C10: every assignment references an existing task id and an
existing worker id, its `equipment` field equals that task's equipment,
and its `worker_name` field equals that worker's name. -/
theorem C10_referential_integrity :
    ∀ a ∈ generate_schedule,
      (∃ t ∈ generate_maintenance_tasks,
        t.id = a.task_id ∧ a.equipment = t.equipment) ∧
      (∃ w ∈ generate_workers,
        w.id = a.worker_id ∧ a.worker_name = w.name) := by
  decide

/-- Witness for C10: row 0 references the existing task MT002 and the
existing worker W002, with matching equipment and worker name. -/
theorem C10_referential_integrity_witness :
    (∃ t ∈ generate_maintenance_tasks,
      t.id = (generate_schedule.get ⟨0, by decide⟩).task_id ∧
      (generate_schedule.get ⟨0, by decide⟩).equipment = t.equipment) ∧
    (∃ w ∈ generate_workers,
      w.id = (generate_schedule.get ⟨0, by decide⟩).worker_id ∧
      (generate_schedule.get ⟨0, by decide⟩).worker_name = w.name) :=
  C10_referential_integrity (generate_schedule.get ⟨0, by decide⟩) (by decide)
